import Mathlib

/-!
Shallow embedding of the concurrency-control primitives of `src/function.rs`
(debounce, throttle, poll, retry) from the `mudssky_utils` Rust crate.

Modelling conventions:
* `Instant` and `Duration` are modelled as `Nat` (a count of time units);
  `Instant::elapsed` at observation time `t` for an instant `i` is `t - i`
  (truncated subtraction, matching `Duration`'s non-negativity), and
  `Instant::duration_since` saturates at zero exactly like `Nat` subtraction.
* `tokio::time::sleep(d)` suspends for at least `d`: a call that starts at
  `now` and wakes at `wake` satisfies `now + d ≤ wake`.  Theorems about the
  post-sleep code carry that inequality as a hypothesis.
* A fallible user operation is a function from its invocation index to
  `Except String T` (the `String` standing for the boxed error's display
  form); indexing by invocation count lets theorems speak about how often
  the operation was invoked.
* Shared mutable controller fields (`Mutex`/`AtomicBool`) become explicit
  state records threaded through the functions.  For the debouncer, whose
  trailing path re-reads the shared cells after the sleep, the core of
  `execute` is parameterised by the values those reads return at wake-up
  time, so that interference from concurrent `execute`/`cancel` calls is
  expressible; the sequential (interference-free) instance is derived from
  it.
-/

namespace MudsskyUtils

/-- Error type of `src/function.rs` (`enum FunctionError`). -/
inductive FunctionError where
  | Timeout (msg : String)
  | RetryExhausted (msg : String)
  | PollingError (msg : String)
  | General (msg : String)
deriving DecidableEq, Repr

/-- Retry options (`struct RetryOptions`), durations as `Nat`. -/
structure RetryOptions where
  max_retries : Nat
  delay : Nat
deriving DecidableEq, Repr

/-- Outcome of a `with_retry` run: the returned value together with the
number of invocations of the operation and the number of `sleep` calls. -/
structure RetryRun (T : Type) where
  result : Except FunctionError T
  calls : Nat
  sleeps : Nat
deriving Repr

/-- Loop of `with_retry` (`while retry_count <= options.max_retries`).
`retryCount` and `lastError` are the local mutable variables of the Rust
function; `calls` counts invocations of `func` so far and `sleeps` counts
executed `sleep(options.delay)` suspensions. -/
def withRetryGo {T : Type} (func : Nat → Except String T) (options : RetryOptions)
    (retryCount : Nat) (lastError : Option String) (calls sleeps : Nat) : RetryRun T :=
  if _h : retryCount ≤ options.max_retries then
    match func calls with
    | .ok result => ⟨.ok result, calls + 1, sleeps⟩
    | .error error =>
        let retryCount' := retryCount + 1
        let sleeps' :=
          if retryCount' ≤ options.max_retries ∧ 0 < options.delay then sleeps + 1 else sleeps
        withRetryGo func options retryCount' (some error) (calls + 1) sleeps'
  else
    ⟨.error (.RetryExhausted
      ("Function failed after " ++ toString options.max_retries ++
        " retries. Last error: " ++ lastError.getD "Unknown error")), calls, sleeps⟩
termination_by options.max_retries + 1 - retryCount
decreasing_by omega

/-- Entry point `with_retry(func, options)`: `retry_count = 0`,
`last_error = None`, no invocations or sleeps yet. -/
def with_retry {T : Type} (func : Nat → Except String T) (options : RetryOptions) :
    RetryRun T :=
  withRetryGo func options 0 none 0 0

/-- Helper: on an operation that fails at every invocation, the retry loop
entered with `retryCount + d = max_retries` performs `d + 1` further
invocations and exhausts. -/
theorem withRetryGo_all_fail {T : Type} (func : Nat → Except String T)
    (errs : Nat → String) (options : RetryOptions)
    (hfail : ∀ k, func k = .error (errs k)) :
    ∀ d retryCount calls sleeps lastError, retryCount + d = options.max_retries →
      withRetryGo func options retryCount lastError calls sleeps =
        ⟨.error (.RetryExhausted
          ("Function failed after " ++ toString options.max_retries ++
            " retries. Last error: " ++ errs (calls + d))),
          calls + d + 1,
          sleeps + (if 0 < options.delay then d else 0)⟩ := by
  intro d
  induction d with
  | zero =>
      intro retryCount calls sleeps lastError hrc
      rw [withRetryGo]
      have hle : retryCount ≤ options.max_retries := by omega
      simp only [hle, dif_pos, hfail calls]
      have hlt : ¬ (retryCount + 1 ≤ options.max_retries ∧ 0 < options.delay) := by
        intro hcon; omega
      rw [withRetryGo]
      have hnot : ¬ (retryCount + 1 ≤ options.max_retries) := by omega
      simp only [hnot, dif_neg, not_false_iff, if_neg hlt, Option.getD_some]
      have hdelay : (if 0 < options.delay then 0 else 0) = 0 := by
        split <;> rfl
      simp [hdelay]
  | succ d ih =>
      intro retryCount calls sleeps lastError hrc
      rw [withRetryGo]
      have hle : retryCount ≤ options.max_retries := by omega
      simp only [hle, dif_pos, hfail calls]
      have hle' : retryCount + 1 ≤ options.max_retries := by omega
      have hrc' : retryCount + 1 + d = options.max_retries := by omega
      rw [ih (retryCount + 1) (calls + 1) _ (some (errs calls)) hrc']
      simp only [RetryRun.mk.injEq]
      refine ⟨?_, by omega, ?_⟩
      · rw [show calls + 1 + d = calls + (d + 1) by omega]
      · by_cases hd : 0 < options.delay
        · simp only [hd, and_true, if_pos, hle', if_pos]
          omega
        · simp [hd]

/-- Debounce options (`struct DebounceOptions`). -/
structure DebounceOptions where
  leading : Bool
  trailing : Bool
deriving DecidableEq, Repr

/-- Immutable part of a `Debouncer` (its configuration). -/
structure Debouncer where
  wait_duration : Nat
  options : DebounceOptions
deriving DecidableEq, Repr

/-- Mutable shared cells of a `Debouncer`: `last_call: Mutex<Option<Instant>>`
and `is_cancelled: AtomicBool`. -/
structure DebouncerState where
  last_call : Option Nat
  is_cancelled : Bool
deriving DecidableEq, Repr

/-- Observable outcome of one `Debouncer::execute` call: the returned value,
the number of times the wrapped operation was invoked by this call, and
whether the call suspended in `sleep(wait_duration)`. -/
structure DebounceExec (T : Type) where
  result : Except FunctionError T
  invocations : Nat
  slept : Bool
deriving Repr

/-- Body of `Debouncer::execute` after the initial `*last_call = Some(now)`
write, parameterised by the values the two post-sleep reads return:
`cancelledAtWake` is the value `is_cancelled` holds when the sleeper wakes,
and `lastCallAtWake` the content of the `last_call` cell at that moment
(under concurrent `execute`/`cancel` calls these may differ from what this
call wrote).  `now` is the `Instant::now()` captured at entry and `wake` the
wall-clock time at which the `sleep(wait_duration)` resumes, so
`now.elapsed()` at the check is `wake - now`.  The `result` argument is the
value the wrapped operation produces if invoked. -/
def debounceExecuteCore {T : Type} (d : Debouncer) (now wake : Nat)
    (cancelledAtWake : Bool) (lastCallAtWake : Option Nat) (result : T) :
    DebounceExec T :=
  if d.options.leading then
    ⟨.ok result, 1, false⟩
  else if cancelledAtWake then
    ⟨.error (.General "Debouncer was cancelled"), 0, true⟩
  else
    let should_execute :=
      match lastCallAtWake with
      | some _last => decide (d.wait_duration ≤ wake - now)
      | none => false
    if should_execute && d.options.trailing then
      ⟨.ok result, 1, true⟩
    else
      ⟨.error (.General "Function execution was debounced"), 0, true⟩

/-- Sequential (interference-free) run of `Debouncer::execute` from state
`st`: the call records `last_call := Some now` at entry, and — no other task
touching the cells in between — its post-sleep reads see exactly the state it
wrote.  Returns the call's outcome together with the controller state as this
call leaves it. -/
def Debouncer.execute {T : Type} (d : Debouncer) (st : DebouncerState)
    (now wake : Nat) (result : T) : DebounceExec T × DebouncerState :=
  let st' : DebouncerState := { st with last_call := some now }
  (debounceExecuteCore d now wake st'.is_cancelled st'.last_call result, st')

/-- Model of `Debouncer::cancel`: stores `true` into `is_cancelled`. -/
def Debouncer.cancel (st : DebouncerState) : DebouncerState :=
  { st with is_cancelled := true }

/-- Model of `Debouncer::is_pending` observed at time `t`. -/
def Debouncer.is_pending (d : Debouncer) (st : DebouncerState) (t : Nat) : Bool :=
  match st.last_call with
  | some last => decide (t - last < d.wait_duration)
  | none => false

/-- Throttle options (`struct ThrottleOptions`). -/
structure ThrottleOptions where
  leading : Bool
  trailing : Bool
deriving DecidableEq, Repr

/-- Immutable part of a `Throttler` (its configuration). -/
structure Throttler where
  wait_duration : Nat
  options : ThrottleOptions
deriving DecidableEq, Repr

/-- Mutable shared cells of a `Throttler`: `last_execution` and
`is_cancelled`. -/
structure ThrottlerState where
  last_execution : Option Nat
  is_cancelled : Bool
deriving DecidableEq, Repr

/-- Observable outcome of one `Throttler::execute` call. -/
structure ThrottleExec (T : Type) where
  result : Except FunctionError T
  invocations : Nat
deriving Repr

/-- Model of `Throttler::execute` called at time `now` on controller state
`st` (`Instant::duration_since` saturates at zero, matching `Nat`
subtraction).  Returns the outcome and the state the call leaves behind. -/
def Throttler.execute {T : Type} (th : Throttler) (st : ThrottlerState)
    (now : Nat) (result : T) : ThrottleExec T × ThrottlerState :=
  if st.is_cancelled then
    (⟨.error (.General "Throttler was cancelled"), 0⟩, st)
  else
    let step : Bool × ThrottlerState :=
      match st.last_execution with
      | some last =>
          if th.wait_duration ≤ now - last then
            (true, { st with last_execution := some now })
          else
            (false, st)
      | none =>
          (th.options.leading, { st with last_execution := some now })
    if step.1 then
      (⟨.ok result, 1⟩, step.2)
    else
      (⟨.error (.General "Function execution was throttled"), 0⟩, step.2)

/-- Model of `Throttler::cancel`. -/
def Throttler.cancel (st : ThrottlerState) : ThrottlerState :=
  { st with is_cancelled := true }

/-- Polling options (`struct PollingOptions`), durations as `Nat`. -/
structure PollingOptions where
  interval : Nat
  max_retries : Nat
  quit_on_error : Bool
  immediate : Bool
  max_executions : Nat
deriving DecidableEq, Repr

/-- Immutable part of a `Poller` (its configuration). -/
structure Poller where
  options : PollingOptions
deriving DecidableEq, Repr

/-- Mutable shared cells of a `Poller`: `is_active`, `retry_count`,
`execution_count`. -/
structure PollerState where
  is_active : Bool
  retry_count : Nat
  execution_count : Nat
deriving DecidableEq, Repr

/-- Model of `Poller::status` (a snapshot of the three cells). -/
def Poller.status (st : PollerState) : PollerState := st

/-- Outcome of a `Poller::start` run: the returned value, the controller
state when `start` returns, the number of task invocations made by this
`start` call, and the number of `sleep(interval)` suspensions. -/
structure PollRun (T : Type) where
  result : Except FunctionError T
  state : PollerState
  invocations : Nat
  sleeps : Nat
deriving Repr

/-- The `while self.is_active` loop of `Poller::start`, sequential model:
no concurrent `stop()` runs during the loop, so the mid-iteration
`!is_active` re-check after the sleep (which can only fire when a concurrent
task stored `false` meanwhile) never breaks and is omitted.  `task` is
indexed by the number of task invocations already made (`inv`); `slp` counts
sleeps so far.  `fuel` bounds the number of iterations the model can unfold;
`none` means the fuel ran out before the loop returned. -/
def pollLoop {T : Type} (options : PollingOptions) (task : Nat → Except String T)
    (stop_condition : T → Bool) :
    PollerState → Nat → Nat → Nat → Option (PollRun T)
  | _, _, _, 0 => none
  | st, inv, slp, fuel + 1 =>
    if st.is_active then
      let st1 : PollerState := { st with execution_count := st.execution_count + 1 }
      if st1.execution_count > options.max_executions then
        some ⟨.error (.PollingError "Polling stopped"), st1, inv, slp⟩
      else
        match task inv with
        | .ok r =>
            if stop_condition r then
              some ⟨.ok r, { st1 with is_active := false }, inv + 1, slp + 1⟩
            else
              pollLoop options task stop_condition st1 (inv + 1) (slp + 1) fuel
        | .error _ =>
            let st2 : PollerState := { st1 with retry_count := st1.retry_count + 1 }
            if options.quit_on_error && options.max_retries ≤ st2.retry_count then
              some ⟨.error (.PollingError "Max retries exceeded"),
                { st2 with is_active := false }, inv + 1, slp + 1⟩
            else
              pollLoop options task stop_condition st2 (inv + 1) (slp + 1) fuel
    else
      some ⟨.error (.PollingError "Polling stopped"), st, inv, slp⟩

/-- Model of `Poller::start` from controller state `st` (sequential, no
concurrent `stop()`): stores `is_active := true`, optionally performs the
`immediate` invocation, then enters the polling loop. -/
def Poller.start {T : Type} (p : Poller) (task : Nat → Except String T)
    (stop_condition : T → Bool) (st : PollerState) (fuel : Nat) :
    Option (PollRun T) :=
  let st0 : PollerState := { st with is_active := true }
  if p.options.immediate then
    match task 0 with
    | .ok r =>
        if stop_condition r then
          some ⟨.ok r, st0, 1, 0⟩
        else
          pollLoop p.options task stop_condition st0 1 0 fuel
    | .error _ =>
        pollLoop p.options task stop_condition
          { st0 with retry_count := st0.retry_count + 1 } 1 0 fuel
  else
    pollLoop p.options task stop_condition st0 0 0 fuel

/-- Model of `Poller::stop`: stores `false` into `is_active`. -/
def Poller.stop (st : PollerState) : PollerState :=
  { st with is_active := false }

/-- C1: for every `max_retries = n` and every operation failing on all
invocations, `with_retry` invokes the operation exactly `n + 1` times and
returns a `RetryExhausted` error whose message is
`"Function failed after n retries. Last error: <last>"` (which contains
`"failed after n retries"`). -/
theorem with_retry_exhausts_after_all_failures {T : Type}
    (func : Nat → Except String T) (errs : Nat → String) (options : RetryOptions)
    (hfail : ∀ k, func k = .error (errs k)) :
    with_retry func options =
      ⟨.error (.RetryExhausted
        ("Function failed after " ++ toString options.max_retries ++
          " retries. Last error: " ++ errs options.max_retries)),
        options.max_retries + 1,
        if 0 < options.delay then options.max_retries else 0⟩ := by
  have h := withRetryGo_all_fail func errs options hfail options.max_retries 0 0 0 none
    (by omega)
  simpa [with_retry] using h

/-- Witness for C1: `RetryOptions{max_retries: 2, delay: 0}` with an
always-failing operation: the operation runs 3 times and the message
contains `"failed after 2 retries"`. -/
theorem with_retry_exhausts_after_all_failures_witness :
    (with_retry (fun _ => .error "boom") ⟨2, 0⟩ : RetryRun Nat) =
      ⟨.error (.RetryExhausted "Function failed after 2 retries. Last error: boom"),
        3, 0⟩ ∧
    ∃ a b : String,
      "Function failed after 2 retries. Last error: boom" =
        a ++ "failed after 2 retries" ++ b := by
  constructor
  · have h := with_retry_exhausts_after_all_failures (T := Nat)
      (fun _ => .error "boom") (fun _ => "boom") ⟨2, 0⟩ (fun _ => rfl)
    simpa using h
  · exact ⟨"Function ", ". Last error: boom", by decide⟩

/-- C2 counterexample: first `execute` call at time 0 with `wait = 10`,
`leading = false`, `trailing = true`; a second call at time 5 has meanwhile
stored 5 into `last_call`; the first call wakes at time 10, not cancelled.
Only `10 - 5 = 5 < 10` time units have elapsed since the last recorded call,
so the claim requires a "debounced" rejection without invoking the
operation — but the code invokes the operation and returns its result,
because the elapsed check uses this call's own start time, not the stored
timestamp. -/
theorem debounce_superseded_call_still_executes :
    debounceExecuteCore ⟨10, ⟨false, true⟩⟩ 0 10 false (some 5) (42 : Nat) =
      ⟨.ok 42, 1, true⟩ ∧ (10 : Nat) - 5 < 10 := by
  exact ⟨rfl, by decide⟩

/-- C2 (amended): for a non-leading, non-cancelled `execute` call that woke
after sleeping at least `wait` since its own start, the outcome is decided
by `trailing` and the mere presence of a recorded last call: the value of
the stored last-call timestamp is never consulted (the elapsed check uses
this call's own start and therefore always passes after the sleep), so
supersession by a more recent call does not cause a rejection. -/
theorem debounce_trailing_checks_own_start {T : Type} (d : Debouncer)
    (now wake : Nat) (lastCallAtWake : Option Nat) (r : T)
    (hlead : d.options.leading = false)
    (hsleep : now + d.wait_duration ≤ wake) :
    debounceExecuteCore d now wake false lastCallAtWake r =
      if lastCallAtWake.isSome && d.options.trailing then ⟨.ok r, 1, true⟩
      else ⟨.error (.General "Function execution was debounced"), 0, true⟩ := by
  have hel : d.wait_duration ≤ wake - now := by omega
  cases lastCallAtWake with
  | none => simp [debounceExecuteCore, hlead]
  | some t => simp [debounceExecuteCore, hlead, hel]

/-- Witness for C2 (amended): a call at time 3 waking at 20 with `wait = 10`
and a superseding record at 17 still executes, trailing being set. -/
theorem debounce_trailing_checks_own_start_witness :
    debounceExecuteCore ⟨10, ⟨false, true⟩⟩ 3 20 false (some 17) (7 : Nat) =
      ⟨.ok 7, 1, true⟩ := by
  have h := debounce_trailing_checks_own_start (T := Nat) ⟨10, ⟨false, true⟩⟩
    3 20 (some 17) 7 rfl (by decide)
  simpa using h

/-- C7: with `leading = true`, every `execute` call invokes the wrapped
operation exactly once, without suspending, and returns `Ok` with the
operation's result — whatever the controller state (pending timer recorded
or not, cancelled or not); the trailing path is never taken. -/
theorem debounce_leading_executes_immediately {T : Type} (d : Debouncer)
    (st : DebouncerState) (now wake : Nat) (r : T)
    (hlead : d.options.leading = true) :
    Debouncer.execute d st now wake r =
      (⟨.ok r, 1, false⟩, { st with last_call := some now }) := by
  simp [Debouncer.execute, debounceExecuteCore, hlead]

/-- Witness for C7: leading call on a controller with a pending recorded
call executes immediately. -/
theorem debounce_leading_executes_immediately_witness :
    Debouncer.execute ⟨10, ⟨true, false⟩⟩ ⟨some 99, false⟩ 100 100 (5 : Nat) =
      (⟨.ok 5, 1, false⟩, ⟨some 100, false⟩) := by
  have h := debounce_leading_executes_immediately (T := Nat) ⟨10, ⟨true, false⟩⟩
    ⟨some 99, false⟩ 100 100 5 rfl
  simpa using h

/-- C8: with `leading = true`, an `execute` call invokes the operation and
returns `Ok` even when `cancel()` was called before it — the cancellation
flag is only consulted on the non-leading path, after the sleep, so
leading-edge executions are never blocked by cancellation. -/
theorem debounce_leading_ignores_cancel {T : Type} (d : Debouncer)
    (st : DebouncerState) (now wake : Nat) (r : T)
    (hlead : d.options.leading = true) :
    (Debouncer.execute d (Debouncer.cancel st) now wake r).1 = ⟨.ok r, 1, false⟩ ∧
    (Debouncer.execute d (Debouncer.cancel st) now wake r).2.is_cancelled = true := by
  simp [Debouncer.execute, Debouncer.cancel, debounceExecuteCore, hlead]

/-- Witness for C8: cancel then a leading execute still returns `Ok`. -/
theorem debounce_leading_ignores_cancel_witness :
    (Debouncer.execute ⟨10, ⟨true, true⟩⟩ (Debouncer.cancel ⟨none, false⟩)
        0 0 (42 : Nat)).1 = ⟨.ok 42, 1, false⟩ := by
  have h := debounce_leading_ignores_cancel (T := Nat) ⟨10, ⟨true, true⟩⟩
    ⟨none, false⟩ 0 0 42 rfl
  exact h.1

/-- C6 counterexample: on the controller `wait = 10`,
`{leading: false, trailing: true}`, after `cancel()` an `execute` call fails
with the cancellation error, and no subsequent `execute` call on the
resulting controller can succeed — the cancellation flag is never cleared,
so the cancellation failure is fatal, contradicting the claim that both
failure kinds leave the controller able to succeed. -/
theorem debouncer_cancelled_never_recovers :
    (Debouncer.execute ⟨10, ⟨false, true⟩⟩ (Debouncer.cancel ⟨none, false⟩)
        0 10 (42 : Nat)).1.result = .error (.General "Debouncer was cancelled") ∧
    ¬ ∃ (now wake r v : Nat),
        (Debouncer.execute ⟨10, ⟨false, true⟩⟩
            (Debouncer.execute ⟨10, ⟨false, true⟩⟩ (Debouncer.cancel ⟨none, false⟩)
              0 10 (42 : Nat)).2
            now wake r).1.result = .ok v := by
  refine ⟨rfl, ?_⟩
  rintro ⟨now, wake, r, v, h⟩
  simp [Debouncer.execute, Debouncer.cancel, debounceExecuteCore] at h

/-- C6 (amended): a failing `execute` call mutates nothing but the last-call
timestamp (in particular it never poisons the controller, which keeps
processing later calls), but neither failure kind leaves the controller able
to succeed again: after a cancellation failure every subsequent non-leading
call fails with the same cancellation error (the flag is never reset), and
the debounced rejection only arises when `trailing` is disabled, in which
case every subsequent non-leading call is rejected the same way. -/
theorem debouncer_failure_kinds_amended {T : Type} (d : Debouncer)
    (st : DebouncerState) (now wake now2 wake2 : Nat) (r r2 : T)
    (hlead : d.options.leading = false) :
    (Debouncer.execute d st now wake r).2 = { st with last_call := some now } ∧
    (st.is_cancelled = true →
      (Debouncer.execute d st now wake r).1 =
        ⟨.error (.General "Debouncer was cancelled"), 0, true⟩ ∧
      (Debouncer.execute d (Debouncer.execute d st now wake r).2
          now2 wake2 r2).1.result = .error (.General "Debouncer was cancelled")) ∧
    (st.is_cancelled = false → d.options.trailing = false →
      (Debouncer.execute d st now wake r).1 =
        ⟨.error (.General "Function execution was debounced"), 0, true⟩ ∧
      (Debouncer.execute d (Debouncer.execute d st now wake r).2
          now2 wake2 r2).1.result =
        .error (.General "Function execution was debounced")) := by
  refine ⟨rfl, ?_, ?_⟩
  · intro hc
    constructor
    · simp [Debouncer.execute, debounceExecuteCore, hlead, hc]
    · simp [Debouncer.execute, debounceExecuteCore, hlead, hc]
  · intro hc htr
    constructor
    · simp [Debouncer.execute, debounceExecuteCore, hlead, hc, htr]
    · simp [Debouncer.execute, debounceExecuteCore, hlead, hc, htr]

/-- Witness for C6 (amended): both failure kinds exercised concretely — a
cancelled controller fails twice in a row with the cancellation error, and a
non-trailing controller is rejected twice in a row. -/
theorem debouncer_failure_kinds_amended_witness :
    ((Debouncer.execute ⟨10, ⟨false, true⟩⟩ ⟨none, true⟩ 0 10 (1 : Nat)).1 =
      ⟨.error (.General "Debouncer was cancelled"), 0, true⟩) ∧
    ((Debouncer.execute ⟨10, ⟨false, false⟩⟩ ⟨none, false⟩ 0 10 (1 : Nat)).1 =
      ⟨.error (.General "Function execution was debounced"), 0, true⟩) := by
  constructor
  · exact ((debouncer_failure_kinds_amended (T := Nat) ⟨10, ⟨false, true⟩⟩
      ⟨none, true⟩ 0 10 20 30 1 1 rfl).2.1 rfl).1
  · exact ((debouncer_failure_kinds_amended (T := Nat) ⟨10, ⟨false, false⟩⟩
      ⟨none, false⟩ 0 10 20 30 1 1 rfl).2.2 rfl rfl).1

/-- C4: for a non-cancelled `Throttler`, an `execute` call with no prior
execution recorded invokes the operation iff `leading` is true (otherwise the
slot is marked consumed, nothing runs, and the call fails as throttled); with
a prior execution at least `wait` ago the timestamp is refreshed and the
operation executes; otherwise the call fails as throttled with no invocation
and no state mutation. -/
theorem throttler_execute_spec {T : Type} (th : Throttler) (st : ThrottlerState)
    (now : Nat) (r : T) (hc : st.is_cancelled = false) :
    (st.last_execution = none →
      Throttler.execute th st now r =
        (if th.options.leading then
          (⟨.ok r, 1⟩, { st with last_execution := some now })
         else
          (⟨.error (.General "Function execution was throttled"), 0⟩,
            { st with last_execution := some now }))) ∧
    (∀ last, st.last_execution = some last → th.wait_duration ≤ now - last →
      Throttler.execute th st now r =
        (⟨.ok r, 1⟩, { st with last_execution := some now })) ∧
    (∀ last, st.last_execution = some last → now - last < th.wait_duration →
      Throttler.execute th st now r =
        (⟨.error (.General "Function execution was throttled"), 0⟩, st)) := by
  refine ⟨?_, ?_, ?_⟩
  · intro hnone
    cases hl : th.options.leading <;>
      simp [Throttler.execute, hc, hnone, hl]
  · intro last hsome hle
    simp [Throttler.execute, hc, hsome, hle]
  · intro last hsome hlt
    have hnle : ¬ th.wait_duration ≤ now - last := by omega
    simp [Throttler.execute, hc, hsome, hnle]

/-- Witness for C4: all four behaviors at concrete inputs — fresh slot with
leading executes; fresh slot without leading is consumed but rejected; an
elapsed window refreshes and executes; an open window rejects without
mutating the state. -/
theorem throttler_execute_spec_witness :
    (Throttler.execute ⟨10, ⟨true, false⟩⟩ ⟨none, false⟩ 0 (42 : Nat) =
      (⟨.ok 42, 1⟩, ⟨some 0, false⟩)) ∧
    (Throttler.execute ⟨10, ⟨false, true⟩⟩ ⟨none, false⟩ 0 (42 : Nat) =
      (⟨.error (.General "Function execution was throttled"), 0⟩, ⟨some 0, false⟩)) ∧
    (Throttler.execute ⟨10, ⟨true, false⟩⟩ ⟨some 0, false⟩ 12 (42 : Nat) =
      (⟨.ok 42, 1⟩, ⟨some 12, false⟩)) ∧
    (Throttler.execute ⟨10, ⟨true, false⟩⟩ ⟨some 0, false⟩ 3 (42 : Nat) =
      (⟨.error (.General "Function execution was throttled"), 0⟩, ⟨some 0, false⟩)) := by
  refine ⟨?_, ?_, ?_, ?_⟩
  · exact ((throttler_execute_spec (T := Nat) ⟨10, ⟨true, false⟩⟩ ⟨none, false⟩
      0 42 rfl).1 rfl).trans rfl
  · exact ((throttler_execute_spec (T := Nat) ⟨10, ⟨false, true⟩⟩ ⟨none, false⟩
      0 42 rfl).1 rfl).trans rfl
  · exact (throttler_execute_spec (T := Nat) ⟨10, ⟨true, false⟩⟩ ⟨some 0, false⟩
      12 42 rfl).2.1 0 rfl (by decide)
  · exact (throttler_execute_spec (T := Nat) ⟨10, ⟨true, false⟩⟩ ⟨some 0, false⟩
      3 42 rfl).2.2 0 rfl (by decide)

/-- C5: in the poll loop with `quit_on_error = true`, a task failure
increments the retry counter; if the incremented counter has reached
`max_retries` the loop marks the controller inactive and returns the
`PollingError` "Max retries exceeded", and otherwise the loop continues with
the incremented counter (the failure does not terminate it). -/
theorem poller_quit_on_error_spec {T : Type} (options : PollingOptions)
    (task : Nat → Except String T) (stop_condition : T → Bool)
    (st : PollerState) (inv slp fuel : Nat) (e : String)
    (hq : options.quit_on_error = true)
    (hact : st.is_active = true)
    (hexec : st.execution_count + 1 ≤ options.max_executions)
    (hfail : task inv = .error e) :
    (options.max_retries ≤ st.retry_count + 1 →
      pollLoop options task stop_condition st inv slp (fuel + 1) =
        some ⟨.error (.PollingError "Max retries exceeded"),
          ⟨false, st.retry_count + 1, st.execution_count + 1⟩, inv + 1, slp + 1⟩) ∧
    (st.retry_count + 1 < options.max_retries →
      pollLoop options task stop_condition st inv slp (fuel + 1) =
        pollLoop options task stop_condition
          ⟨st.is_active, st.retry_count + 1, st.execution_count + 1⟩
          (inv + 1) (slp + 1) fuel) := by
  have hngt : ¬ st.execution_count + 1 > options.max_executions := by omega
  constructor
  · intro hge
    simp [pollLoop, hact, hngt, hfail, hq, hge]
  · intro hlt
    have hnge : ¬ options.max_retries ≤ st.retry_count + 1 := by omega
    simp [pollLoop, hact, hngt, hfail, hq, hnge]

/-- Witness for C5: `max_retries = 2`, `quit_on_error = true`: a failure
raising the counter to 2 terminates with "Max retries exceeded" and marks
the controller inactive; a failure raising it to 1 continues the loop. -/
theorem poller_quit_on_error_spec_witness :
    (pollLoop ⟨1, 2, true, false, 10⟩ (fun _ => (.error "e" : Except String Nat))
        (fun _ => true) ⟨true, 1, 1⟩ 1 1 4 =
      some ⟨.error (.PollingError "Max retries exceeded"), ⟨false, 2, 2⟩, 2, 2⟩) ∧
    (pollLoop ⟨1, 2, true, false, 10⟩ (fun _ => (.error "e" : Except String Nat))
        (fun _ => true) ⟨true, 0, 0⟩ 0 0 5 =
      pollLoop ⟨1, 2, true, false, 10⟩ (fun _ => (.error "e" : Except String Nat))
        (fun _ => true) ⟨true, 1, 1⟩ 1 1 4) := by
  constructor
  · exact (poller_quit_on_error_spec (T := Nat) ⟨1, 2, true, false, 10⟩
      (fun _ => .error "e") (fun _ => true) ⟨true, 1, 1⟩ 1 1 3 "e"
      rfl rfl (by decide) rfl).1 (by decide)
  · exact (poller_quit_on_error_spec (T := Nat) ⟨1, 2, true, false, 10⟩
      (fun _ => .error "e") (fun _ => true) ⟨true, 0, 0⟩ 0 0 4 "e"
      rfl rfl (by decide) rfl).2 (by decide)

/-- C9: the execution-count check precedes the sleep and the task invocation:
once the incremented execution count exceeds `max_executions`, the loop
returns the `PollingError` "Polling stopped" with no sleep and no task
invocation in that iteration; in particular with `immediate = false` and
`max_executions = 0`, `start` returns that error with zero task invocations
and zero sleeps. -/
theorem poller_max_executions_check_first {T : Type} (options : PollingOptions)
    (task : Nat → Except String T) (stop_condition : T → Bool)
    (st : PollerState) (p : Poller) (b : Bool) (rc inv slp fuel : Nat) :
    (st.is_active = true → options.max_executions < st.execution_count + 1 →
      pollLoop options task stop_condition st inv slp (fuel + 1) =
        some ⟨.error (.PollingError "Polling stopped"),
          { st with execution_count := st.execution_count + 1 }, inv, slp⟩) ∧
    (p.options.immediate = false → p.options.max_executions = 0 →
      Poller.start p task stop_condition ⟨b, rc, 0⟩ (fuel + 1) =
        some ⟨.error (.PollingError "Polling stopped"), ⟨true, rc, 1⟩, 0, 0⟩) := by
  constructor
  · intro hact hgt
    simp only [pollLoop, hact, if_true]
    rw [if_pos (by omega)]
  · intro himm hmax
    simp only [Poller.start, himm, Bool.false_eq_true, if_false]
    simp only [pollLoop, if_true]
    rw [if_pos (by omega)]

/-- Witness for C9: both the general check-first fact and the
`immediate = false`, `max_executions = 0` specialization at concrete
inputs — the task is never invoked. -/
theorem poller_max_executions_check_first_witness :
    (pollLoop ⟨1, 3, true, false, 2⟩ (fun _ => (.ok 0 : Except String Nat))
        (fun _ => false) ⟨true, 0, 2⟩ 2 2 7 =
      some ⟨.error (.PollingError "Polling stopped"), ⟨true, 0, 3⟩, 2, 2⟩) ∧
    (Poller.start ⟨⟨5, 3, true, false, 0⟩⟩ (fun _ => (.ok 0 : Except String Nat))
        (fun _ => false) ⟨false, 4, 0⟩ 9 =
      some ⟨.error (.PollingError "Polling stopped"), ⟨true, 4, 1⟩, 0, 0⟩) := by
  constructor
  · exact ((poller_max_executions_check_first (T := Nat) ⟨1, 3, true, false, 2⟩
      (fun _ => .ok 0) (fun _ => false) ⟨true, 0, 2⟩ ⟨⟨5, 3, true, false, 0⟩⟩
      false 4 2 2 6).1 rfl (by decide)).trans rfl
  · exact (poller_max_executions_check_first (T := Nat) ⟨1, 3, true, false, 2⟩
      (fun _ => .ok 0) (fun _ => false) ⟨true, 0, 2⟩ ⟨⟨5, 3, true, false, 0⟩⟩
      false 4 2 2 8).2 rfl rfl

/-- C10: with `immediate = true`, the initial immediate invocation is not
counted in `execution_count`: when it succeeds with a stop-satisfying result,
`start` returns it with the execution count unchanged from before the call;
when it fails, only `retry_count` is incremented on the state the loop is
then entered with. -/
theorem poller_immediate_not_counted {T : Type} (p : Poller)
    (task : Nat → Except String T) (stop_condition : T → Bool)
    (st : PollerState) (fuel : Nat)
    (himm : p.options.immediate = true) :
    (∀ r, task 0 = .ok r → stop_condition r = true →
      Poller.start p task stop_condition st fuel =
        some ⟨.ok r, { st with is_active := true }, 1, 0⟩) ∧
    (∀ e, task 0 = .error e →
      Poller.start p task stop_condition st fuel =
        pollLoop p.options task stop_condition
          { st with is_active := true, retry_count := st.retry_count + 1 }
          1 0 fuel) := by
  constructor
  · intro r hok hstop
    simp [Poller.start, himm, hok, hstop]
  · intro e herr
    simp [Poller.start, himm, herr]

/-- Witness for C10: an immediate stop-satisfying success leaves
`execution_count` at its pre-start value 6; an immediate failure enters the
loop with only `retry_count` incremented. -/
theorem poller_immediate_not_counted_witness :
    (Poller.start ⟨⟨1, 3, true, true, 10⟩⟩ (fun _ => (.ok 7 : Except String Nat))
        (fun _ => true) ⟨false, 2, 6⟩ 3 =
      some ⟨.ok 7, ⟨true, 2, 6⟩, 1, 0⟩) ∧
    (Poller.start ⟨⟨1, 3, true, true, 10⟩⟩ (fun _ => (.error "e" : Except String Nat))
        (fun _ => false) ⟨false, 2, 6⟩ 3 =
      pollLoop ⟨1, 3, true, true, 10⟩ (fun _ => (.error "e" : Except String Nat))
        (fun _ => false) ⟨true, 3, 6⟩ 1 0 3) := by
  constructor
  · exact (poller_immediate_not_counted (T := Nat) ⟨⟨1, 3, true, true, 10⟩⟩
      (fun _ => .ok 7) (fun _ => true) ⟨false, 2, 6⟩ 3 rfl).1 7 rfl rfl
  · exact (poller_immediate_not_counted (T := Nat) ⟨⟨1, 3, true, true, 10⟩⟩
      (fun _ => .error "e") (fun _ => false) ⟨false, 2, 6⟩ 3 rfl).2 "e" rfl

/-- C3 counterexample: two `start` return paths leave `is_active = true`.
With `immediate = false` and `max_executions = 0`, `start` returns the
"Polling stopped" failure via the `break` in the loop without storing
`false` into `is_active`; with `immediate = true` and an immediately
stop-satisfying task, `start` returns `Ok` without storing `false` either.
A `status()` query issued after those returns reports `is_active = true`,
contradicting the claim that the controller is left inactive whenever
`start` returns. -/
theorem poller_start_leaves_active :
    (Poller.start ⟨⟨1, 3, true, false, 0⟩⟩ (fun _ => (.ok 0 : Except String Nat))
        (fun _ => false) ⟨false, 0, 0⟩ 1 =
      some ⟨.error (.PollingError "Polling stopped"), ⟨true, 0, 1⟩, 0, 0⟩) ∧
    (Poller.start ⟨⟨1, 3, true, true, 10⟩⟩ (fun _ => (.ok 7 : Except String Nat))
        (fun _ => true) ⟨false, 0, 0⟩ 1 =
      some ⟨.ok 7, ⟨true, 0, 0⟩, 1, 0⟩) ∧
    (Poller.status ⟨true, 0, 1⟩).is_active = true ∧
    (Poller.status ⟨true, 0, 0⟩).is_active = true := by
  exact ⟨rfl, rfl, rfl, rfl⟩

/-- Helper: classification of the controller activity at each return of the
(sequential) poll loop entered in the active state: an `Ok` return and a
"Max retries exceeded" return store `false` into `is_active`; a
"Polling stopped" return (reachable here only through the max-executions
`break`) leaves `is_active = true`. -/
theorem pollLoop_active_return {T : Type} (options : PollingOptions)
    (task : Nat → Except String T) (stop_condition : T → Bool) :
    ∀ fuel st inv slp run, st.is_active = true →
      pollLoop options task stop_condition st inv slp fuel = some run →
      ((∃ r, run.result = .ok r) → run.state.is_active = false) ∧
      (run.result = .error (.PollingError "Max retries exceeded") →
        run.state.is_active = false) ∧
      (run.result = .error (.PollingError "Polling stopped") →
        run.state.is_active = true) := by
  intro fuel
  induction fuel with
  | zero =>
      intro st inv slp run hact hrun
      simp [pollLoop] at hrun
  | succ fuel ih =>
      intro st inv slp run hact hrun
      rw [pollLoop, if_pos hact] at hrun
      dsimp only at hrun
      by_cases hex : st.execution_count + 1 > options.max_executions
      · rw [if_pos hex] at hrun
        obtain rfl := Option.some.inj hrun
        refine ⟨?_, ?_, fun _ => hact⟩
        · rintro ⟨r, hr⟩
          simp at hr
        · intro hr
          simp at hr
      · rw [if_neg hex] at hrun
        cases htask : task inv with
        | ok r =>
            rw [htask] at hrun
            dsimp only at hrun
            by_cases hstop : stop_condition r = true
            · rw [if_pos hstop] at hrun
              obtain rfl := Option.some.inj hrun
              refine ⟨fun _ => rfl, fun hr => ?_, fun hr => ?_⟩ <;> simp at hr
            · rw [if_neg hstop] at hrun
              exact ih ⟨st.is_active, st.retry_count, st.execution_count + 1⟩
                (inv + 1) (slp + 1) run hact hrun
        | error e =>
            rw [htask] at hrun
            dsimp only at hrun
            by_cases hq : (options.quit_on_error &&
                decide (options.max_retries ≤ st.retry_count + 1)) = true
            · rw [if_pos hq] at hrun
              obtain rfl := Option.some.inj hrun
              refine ⟨?_, fun _ => rfl, ?_⟩
              · rintro ⟨r, hr⟩
                simp at hr
              · intro hr
                simp at hr
            · rw [if_neg hq] at hrun
              exact ih ⟨st.is_active, st.retry_count + 1, st.execution_count + 1⟩
                (inv + 1) (slp + 1) run hact hrun

/-- C3 (amended): at each return of the (sequential) poll loop entered
active, an `Ok` return and a "Max retries exceeded" return leave the
controller inactive, but a "Polling stopped" return — here reachable only
through max-executions exhaustion — leaves `is_active = true`, as does the
immediate-success return of `start`; a `status()` query after those two
returns therefore still reports the controller active.  The controller can
always be restarted, because `start` overwrites `is_active` with `true` on
entry, making its behavior independent of the recorded activity flag. -/
theorem poller_return_activity_amended {T : Type} (p : Poller)
    (task : Nat → Except String T) (stop_condition : T → Bool)
    (st : PollerState) (inv slp fuel : Nat) (run : PollRun T)
    (hact : st.is_active = true)
    (hrun : pollLoop p.options task stop_condition st inv slp fuel = some run) :
    ((∃ r, run.result = .ok r) → (Poller.status run.state).is_active = false) ∧
    (run.result = .error (.PollingError "Max retries exceeded") →
      (Poller.status run.state).is_active = false) ∧
    (run.result = .error (.PollingError "Polling stopped") →
      (Poller.status run.state).is_active = true) ∧
    (Poller.start p task stop_condition st fuel =
      Poller.start p task stop_condition { st with is_active := true } fuel) ∧
    (p.options.immediate = true → ∀ r, task 0 = .ok r → stop_condition r = true →
      Poller.start p task stop_condition st fuel =
        some ⟨.ok r, { st with is_active := true }, 1, 0⟩) := by
  have h := pollLoop_active_return p.options task stop_condition fuel st inv slp run
    hact hrun
  refine ⟨h.1, h.2.1, h.2.2, rfl, ?_⟩
  intro himm r hok hstop
  simp [Poller.start, himm, hok, hstop]

/-- Witness for C3 (amended): a concrete max-retries run ends inactive, and
a concrete immediate-success `start` returns with the controller still
active. -/
theorem poller_return_activity_amended_witness :
    ((Poller.status
        (⟨.error (.PollingError "Max retries exceeded"), ⟨false, 2, 2⟩, 2, 2⟩ :
          PollRun Nat).state).is_active = false) ∧
    (Poller.start ⟨⟨1, 2, true, true, 10⟩⟩ (fun _ => (.ok 7 : Except String Nat))
        (fun _ => true) ⟨true, 5, 6⟩ 3 = some ⟨.ok 7, ⟨true, 5, 6⟩, 1, 0⟩) := by
  constructor
  · exact (poller_return_activity_amended (T := Nat) ⟨⟨1, 2, true, false, 10⟩⟩
      (fun _ => .error "e") (fun _ => true) ⟨true, 0, 0⟩ 0 0 5
      ⟨.error (.PollingError "Max retries exceeded"), ⟨false, 2, 2⟩, 2, 2⟩
      rfl rfl).2.1 rfl
  · exact (poller_return_activity_amended (T := Nat) ⟨⟨1, 2, true, true, 10⟩⟩
      (fun _ => .ok 7) (fun _ => true) ⟨true, 5, 6⟩ 0 0 3
      ⟨.ok 7, ⟨false, 5, 7⟩, 1, 1⟩ rfl rfl).2.2.2.2 rfl 7 rfl rfl

end MudsskyUtils
